import Mathlib

/-!
Shallow embedding of the LRID scoring & consistency engine
(`src/scoring_engine.js`), the draft scorer (`src/build_draft.js`) and the
band classifiers (`src/generate_reports.js` `band`, `src/build_draft.js`
`bandFor`), with theorems settling the specification claims.

JavaScript numbers are modelled as exact rationals (`ℚ`); `NaN` and the
infinities are collapsed into `Option.none`, which is observationally
faithful here because every consumer of a coerced number in the engine
first filters with `Number.isFinite` (in `mean`, `scoreLikert5`,
`gte_likert`) or serialises through JSON (where `NaN` becomes `null`).
-/

namespace LRID

/-- A JavaScript value as it can appear as an answer's `response`, a
predicate operand, or a multiple-choice key. -/
inductive JSVal where
  | num (q : ℚ)
  | str (s : String)
  | null
  | undef
  | bool (b : Bool)
deriving DecidableEq

/-- Digits of a decimal numeral to a natural number; `none` when the list is
empty or contains a non-digit character. -/
def decDigits (cs : List Char) : Option Nat :=
  if cs.isEmpty then none
  else cs.foldl
    (fun acc c => acc.bind (fun n => if c.isDigit then some (10 * n + (c.toNat - 48)) else none))
    (some 0)

/-- Strip leading and trailing whitespace from a character list. -/
def trimChars (cs : List Char) : List Char :=
  ((cs.dropWhile Char.isWhitespace).reverse.dropWhile Char.isWhitespace).reverse

/-- The numeric value of a string under JavaScript `Number(...)` coercion,
restricted to plain decimal numerals: optional sign, integer digits, an
optional fraction, with surrounding whitespace allowed; the empty (or
all-whitespace) string coerces to `0`.  Exponent, hexadecimal and
`Infinity` forms are not modelled (they do not occur in this system's
data); any other string is `NaN`, i.e. `none`. -/
def jsStrToNumber (s : String) : Option ℚ :=
  let t := trimChars s.toList
  if t.isEmpty then some 0
  else
    let (sign, body) :=
      match t with
      | '-' :: rest => ((-1 : ℚ), rest)
      | '+' :: rest => ((1 : ℚ), rest)
      | l => ((1 : ℚ), l)
    let intPart := body.takeWhile (fun c => c ≠ '.')
    match body.dropWhile (fun c => c ≠ '.') with
    | [] => (decDigits intPart).map (fun n => sign * n)
    | '.' :: frac =>
      match (if intPart.isEmpty then some 0 else decDigits intPart),
            (if frac.isEmpty then some 0 else decDigits frac) with
      | some i, some f =>
        if intPart.isEmpty && frac.isEmpty then none
        else some (sign * ((i : ℚ) + (f : ℚ) / (10 : ℚ) ^ frac.length))
      | _, _ => none
    | _ => none

/-- JavaScript `Number(v)` coercion; `none` models a non-finite result. -/
def toNumber : JSVal → Option ℚ
  | .num q => some q
  | .str s => jsStrToNumber s
  | .null => some 0
  | .undef => none
  | .bool b => some (if b then 1 else 0)

/-- Left-pad a string with zeros up to length `k` (for decimal fractions). -/
def padZeros (s : String) (k : Nat) : String :=
  String.mk (List.replicate (k - s.length) '0') ++ s

/-- Decimal rendering of a rational, matching JavaScript `String(n)` on the
values that occur here: integers print without a fractional part, and
rationals with a terminating decimal expansion print their shortest
expansion (every JavaScript float is such a rational). -/
def ratToString (q : ℚ) : String :=
  if q.den = 1 then toString q.num
  else
    match (List.range 64).find? (fun k => (q * (10 : ℚ) ^ k).den = 1) with
    | some k =>
      let m := (q * (10 : ℚ) ^ k).num
      let sgn := if m < 0 then "-" else ""
      sgn ++ toString (m.natAbs / 10 ^ k) ++ "." ++ padZeros (toString (m.natAbs % 10 ^ k)) k
    | none => toString q.num ++ "/" ++ toString q.den

/-- JavaScript `String(v)` coercion. -/
def toStr : JSVal → String
  | .num q => ratToString q
  | .str s => s
  | .null => "null"
  | .undef => "undefined"
  | .bool b => if b then "true" else "false"

/-- Embeds `Number(x.toFixed(2))`: round to 2 decimal places, ties away from the
smaller value (ECMAScript `toFixed` picks the larger candidate on a tie). -/
def round2 (q : ℚ) : ℚ := (⌊q * 100 + 1 / 2⌋ : ℚ) / 100

/-- Function `mean(nums)` from `src/scoring_engine.js` lines 8-12: drop the entries
that are not finite numbers, return `null` on an empty remainder, else the
arithmetic mean. -/
def mean (nums : List (Option ℚ)) : Option ℚ :=
  let arr := nums.filterMap id
  if arr.length = 0 then none else some (arr.sum / (arr.length : ℚ))

/-- Function `scoreLikert5(val, reverse)` from `src/scoring_engine.js` lines 14-18. -/
def scoreLikert5 (val : JSVal) (reverse : Bool) : Option ℚ :=
  match toNumber val with
  | none => none
  | some n => if n < 1 ∨ n > 5 then none else some (if reverse then 6 - n else n)

/-- One submitted answer (`{question_id, response}`). -/
structure Answer where
  question_id : String
  response : JSVal
deriving DecidableEq

/-- A question of the instrument's `question_bank`.  The `type` is the raw
type string (`"likert_5"`, `"multiple_choice"`, `"open_text"`, ...). -/
structure Question where
  question_id : String
  dimension : String
  type : String
deriving DecidableEq

/-- A consistency predicate.  The source stores the three operand kinds as
optional object fields checked in the order `equals`, `in`, `gte_likert`
(`src/scoring_engine.js` lines 20-34); `inList` embeds the JSON field
named `in` (a Lean keyword), restricted to the array-valued case. -/
structure Pred where
  question_id : String
  equals : Option JSVal := none
  inList : Option (List JSVal) := none
  gte_likert : Option ℚ := none
deriving DecidableEq

/-- The `logic` object of a consistency rule; a missing `if`/`and` group is
the empty list (the source defaults with `|| []`), a missing `logic` or
`type` is the empty string. -/
structure Logic where
  type : String
  ifPreds : List Pred := []
  andPreds : List Pred := []
  message : String := ""
deriving DecidableEq

/-- A consistency rule from `consistency_checks`. -/
structure Rule where
  cc_id : String
  title : String
  severity : String
  logic : Logic
deriving DecidableEq

/-- A reported consistency hit. -/
structure Hit where
  cc_id : String
  title : String
  severity : String
  message : String
deriving DecidableEq

/-- Function `evaluatePredicate(answer, pred)` from `src/scoring_engine.js` lines
20-34: a missing answer is `false`; the `equals`, `in` and `gte_likert`
fields are tried in that order; a predicate with none of them is `false`. -/
def evaluatePredicate (answer : Option Answer) (pred : Pred) : Bool :=
  match answer with
  | none => false
  | some a =>
    let r := a.response
    match pred.equals with
    | some v => toStr r = toStr v
    | none =>
      match pred.inList with
      | some l => (l.map toStr).contains (toStr r)
      | none =>
        match pred.gte_likert with
        | some t =>
          match toNumber r with
          | some n => decide (n ≥ t)
          | none => false
        | none => false

/-- The instrument document (only the `question_bank` is consumed by the
engine). -/
structure Instrument where
  question_bank : List Question
deriving DecidableEq

/-- The scoring document: the reverse-scored id set and the per-question
multiple-choice score maps (`choiceValue -> score` association lists). -/
structure ScoringCfg where
  reverse_scored_question_ids : List String := []
  multiple_choice_scores : List (String × List (String × ℚ)) := []
deriving DecidableEq

/-- The `confidence_adjustments` object; `none` fields model absent JSON
keys filled by the source's `?? 0.85`, `|| {...}`, `?? 0.55` defaults. -/
structure ConfidenceAdjustments where
  base_confidence : Option ℚ := none
  per_cc_hit_penalty : Option (List (String × ℚ)) := none
  floor : Option ℚ := none
deriving DecidableEq

/-- The consistency document. -/
structure ConsistencyCfg where
  consistency_checks : List Rule := []
  confidence_adjustments : ConfidenceAdjustments := {}
deriving DecidableEq

/-- Map `byId` from `src/scoring_engine.js` lines 47-48: the object built by
`for (const a of answers) byId[a.question_id] = a`, so a later answer for
the same id overwrites an earlier one. -/
def byId (answers : List Answer) : String → Option Answer :=
  answers.foldl
    (fun m a => fun qid => if qid = a.question_id then some a else m qid)
    (fun _ => none)

/-- A scored item as pushed onto `scored_items` (lines 70-76). -/
structure ScoredItem where
  question_id : String
  dimension : String
  type : String
  response : JSVal
  score : Option ℚ
deriving DecidableEq

/-- The per-question score `s` of the loop body, lines 59-68: `likert_5`
goes through `scoreLikert5` with the reverse flag, `multiple_choice` looks
the stringified response up in the question's score map, and every other
type (including `open_text`) leaves the score `null`. -/
def scoreQuestion (scfg : ScoringCfg) (q : Question) (a : Answer) : Option ℚ :=
  if q.type = "likert_5" then
    scoreLikert5 a.response (scfg.reverse_scored_question_ids.contains q.question_id)
  else if q.type = "multiple_choice" then
    match scfg.multiple_choice_scores.lookup q.question_id with
    | some map => map.lookup (toStr a.response)
    | none => none
  else none

/-- The `scored_items` loop (lines 55-77) over an answer lookup: bank
questions with no answer are skipped (`continue`), an answered question
contributes one item. -/
def scoredItemsL (instrument : Instrument) (scfg : ScoringCfg)
    (lookup : String → Option Answer) : List ScoredItem :=
  instrument.question_bank.filterMap (fun q =>
    match lookup q.question_id with
    | none => none
    | some a => some { question_id := q.question_id, dimension := q.dimension,
                       type := q.type, response := a.response,
                       score := scoreQuestion scfg q a })

/-- List `scored_items` for a submission's answers list. -/
def scoredItems (instrument : Instrument) (scfg : ScoringCfg)
    (answers : List Answer) : List ScoredItem :=
  scoredItemsL instrument scfg (byId answers)

/-- The fixed dimension codes (line 80). -/
def dims : List String := ["DI", "RP", "MA", "AC", "PR", "ED"]

/-- Entry `dimension_scores[d]` (lines 84-88): mean of the scores of the items in
dimension `d` whose score is a number. -/
def dimensionScore (items : List ScoredItem) (d : String) : Option ℚ :=
  mean ((items.filter (fun x => decide (x.dimension = d) && x.score.isSome)).map
    (fun x => x.score))

/-- Index `OI` (line 91): mean over the DI, RP, AC dimension scores. -/
def OI (items : List ScoredItem) : Option ℚ :=
  mean [dimensionScore items "DI", dimensionScore items "RP", dimensionScore items "AC"]

/-- Index `HSRI` (line 92): mean over the DI, MA, PR, ED dimension scores. -/
def HSRI (items : List ScoredItem) : Option ℚ :=
  mean [dimensionScore items "DI", dimensionScore items "MA",
        dimensionScore items "PR", dimensionScore items "ED"]

/-- The reported aggregate (lines 128-129): `OI ? Number(OI.toFixed(2)) :
null`.  A truthiness test, so the number `0` takes the `null` branch. -/
def reportAggregate (x : Option ℚ) : Option ℚ :=
  match x with
  | none => none
  | some q => if q = 0 then none else some (round2 q)

/-- The consistency loop (lines 95-111) over an answer lookup: rules whose
`logic.type` is not `"contradiction_pair"` are skipped, a rule is a hit
when every `if` predicate and every `and` predicate holds, and hits keep
declaration order. -/
def consistencyHitsL (cc : ConsistencyCfg) (lookup : String → Option Answer) : List Hit :=
  (cc.consistency_checks.filter (fun r =>
      decide (r.logic.type = "contradiction_pair")
      && r.logic.ifPreds.all (fun p => evaluatePredicate (lookup p.question_id) p)
      && r.logic.andPreds.all (fun p => evaluatePredicate (lookup p.question_id) p))).map
    (fun r => { cc_id := r.cc_id, title := r.title, severity := r.severity,
                message := r.logic.message })

/-- Consistency hits for a submission's answers list. -/
def consistencyHits (cc : ConsistencyCfg) (answers : List Answer) : List Hit :=
  consistencyHitsL cc (byId answers)

/-- The hard-coded penalty map used when the config has none (line 115). -/
def defaultPenalty : List (String × ℚ) :=
  [("LOW", 3 / 100), ("MEDIUM", 6 / 100), ("HIGH", 1 / 10)]

/-- Lookup `Number(penalty[h.severity] ?? 0.06)` (line 119): a severity missing
from the penalty map costs the fixed constant `0.06`. -/
def penaltyFor (penalty : List (String × ℚ)) (severity : String) : ℚ :=
  (penalty.lookup severity).getD (6 / 100)

/-- The confidence computation (lines 114-120): subtract each hit's
penalty from the base, round to 2 decimals, then clamp up to the floor. -/
def confidenceScore (cc : ConsistencyCfg) (hits : List Hit) : ℚ :=
  let base := cc.confidence_adjustments.base_confidence.getD (85 / 100)
  let penalty := cc.confidence_adjustments.per_cc_hit_penalty.getD defaultPenalty
  let floorv := cc.confidence_adjustments.floor.getD (55 / 100)
  max floorv (round2 (hits.foldl (fun c h => c - penaltyFor penalty h.severity) base))

/-- The confidence level (line 122). -/
def confidenceLevel (conf : ℚ) : String :=
  if conf ≥ 4 / 5 then "HIGH" else if conf ≥ 65 / 100 then "MEDIUM" else "LOW"

/-- The `scoring` section of the result object (lines 124-131). -/
structure ScoringSection where
  dimension_scores : List (String × Option ℚ)
  oi : Option ℚ
  hsri : Option ℚ
  scored_items : List ScoredItem
deriving DecidableEq

/-- The `consistency` section of the result object (lines 133-139). -/
structure ConsistencySection where
  hits : List Hit
  confidence_score : ℚ
  confidence_level : String
deriving DecidableEq

/-- The full result object of `runScoring`. -/
structure RunResult where
  scoring : ScoringSection
  consistency : ConsistencySection
deriving DecidableEq

/-- Core of `runScoring` over an answer lookup (the engine reads the answers only
through `byId`). -/
def runScoringL (instrument : Instrument) (scfg : ScoringCfg) (cc : ConsistencyCfg)
    (lookup : String → Option Answer) : RunResult :=
  let items := scoredItemsL instrument scfg lookup
  let hits := consistencyHitsL cc lookup
  let conf := confidenceScore cc hits
  { scoring := { dimension_scores := dims.map (fun d => (d, dimensionScore items d)),
                 oi := reportAggregate (OI items),
                 hsri := reportAggregate (HSRI items),
                 scored_items := items },
    consistency := { hits := hits, confidence_score := conf,
                     confidence_level := confidenceLevel conf } }

/-- Function `runScoring` from `src/scoring_engine.js` lines 36-141, as a pure
function of the three configuration documents and the submission's
answers (the file reads are I/O glue around this computation). -/
def runScoring (instrument : Instrument) (scfg : ScoringCfg) (cc : ConsistencyCfg)
    (answers : List Answer) : RunResult :=
  runScoringL instrument scfg cc (byId answers)

/-- Function `band(score)` from `src/generate_reports.js` lines 216-222; `none`
covers the `null`/`undefined` guard. -/
def band (score : Option ℚ) : String :=
  match score with
  | none => "Insufficient data"
  | some s =>
    if s < 35 then "High Risk / Low Reliability"
    else if s < 55 then "Mixed / Context-Sensitive"
    else if s < 75 then "Generally Reliable"
    else "High Reliability / Strong Signal"

/-- The threshold configuration consumed by `bandFor` in
`src/build_draft.js` (line 59: `{risk_zone_max: 2.79, mixed_max: 3.30}`). -/
structure BandsCfg where
  risk_zone_max : ℚ
  mixed_max : ℚ
deriving DecidableEq

/-- Function `bandFor(score, cfg)` from `src/build_draft.js` lines 32-36.  There is
no null guard: in `score <= cfg.risk_zone_max` JavaScript coerces `null`
to `0`, so a `none` score is compared as `0`. -/
def bandFor (score : Option ℚ) (cfg : BandsCfg) : String :=
  let s := score.getD 0
  if s ≤ cfg.risk_zone_max then "Risk Zone"
  else if s ≤ cfg.mixed_max then "Mixed / Context-dependent"
  else "Functional Strength"

/-- Function `clamp(n, min, max)` from `src/build_draft.js` lines 23-25. -/
def clamp (n mn mx : ℚ) : ℚ := max mn (min mx n)

/-- Function `avg(nums)` from `src/build_draft.js` lines 26-30: drop non-numbers,
and return `0` — not `null` — on an empty remainder. -/
def avg (nums : List (Option ℚ)) : ℚ :=
  let arr := nums.filterMap id
  if arr.length = 0 then 0 else arr.sum / (arr.length : ℚ)

/-- A draft answer as consumed by `build_draft.js` lines 63-68: tagged with
its `type` string; `missing` models a falsy entry of the answers array. -/
inductive DraftAnswer where
  | scale (value : JSVal)
  | single_choice (value : JSVal)
  | other (value : JSVal)
  | missing
deriving DecidableEq

/-- The per-answer value of `build_draft.js` lines 63-68: `scale` answers
clamp `Number(value)` into `[1,5]`, `single_choice` answers clamp
`Number(value) + 1`, anything else is `null`. -/
def draftValue : DraftAnswer → Option ℚ
  | .scale v => (toNumber v).map (fun n => clamp n 1 5)
  | .single_choice v => (toNumber v).map (fun n => clamp (n + 1) 1 5)
  | .other _ => none
  | .missing => none

/-- The round-robin dimension buckets of `build_draft.js` lines 71-78: the
numeric value at position `i` lands in dimension `dims[i % 6]`, null
values are skipped but still consume their index. -/
def draftBucket (values : List (Option ℚ)) (d : String) : List (Option ℚ) :=
  (values.enum.filter (fun p => decide (dims.getD (p.1 % 6) "" = d) && p.2.isSome)).map
    (fun p => p.2)

/-- Entry `dimension_scores[d] = Number(avg(buckets[d]).toFixed(2))` from
`build_draft.js` lines 80-84. -/
def draftDimensionScore (values : List (Option ℚ)) (d : String) : ℚ :=
  round2 (avg (draftBucket values d))

end LRID

namespace LRID

/-! ## Spec-side definitions used for refinement comparisons -/

/-- The band classifier exactly as the spec words it: the label paired with
the first (lowest) threshold whose upper bound is greater than or equal to
the score, else the top unbounded label. -/
def firstBandGE (thresholds : List (ℚ × String)) (top : String) (s : ℚ) : String :=
  match thresholds.find? (fun t => decide (s ≤ t.1)) with
  | some t => t.2
  | none => top

/-- The strict variant of the band classifier: the label paired with the
first threshold whose upper bound is strictly greater than the score, else
the top label. -/
def firstBandGT (thresholds : List (ℚ × String)) (top : String) (s : ℚ) : String :=
  match thresholds.find? (fun t => decide (s < t.1)) with
  | some t => t.2
  | none => top

/-- The thresholds hard-coded in `generate_reports.js`'s `band`. -/
def bandThresholds : List (ℚ × String) :=
  [(35, "High Risk / Low Reliability"), (55, "Mixed / Context-Sensitive"),
   (75, "Generally Reliable")]

/-- The top label of `generate_reports.js`'s `band`. -/
def bandTop : String := "High Reliability / Strong Signal"

/-! ## C1 -/

/-- C1 failing input: one multiple-choice question in dimension DI whose
chosen option is mapped to the score `0`. -/
def c1Instr : Instrument := { question_bank := [⟨"Q1", "DI", "multiple_choice"⟩] }

/-- C1 failing input: the score map sending choice `"a"` of `Q1` to `0`. -/
def c1Scoring : ScoringCfg := { multiple_choice_scores := [("Q1", [("a", 0)])] }

/-- C1 failing input: the submitted answer choosing `"a"` for `Q1`. -/
def c1Answers : List Answer := [⟨"Q1", JSVal.str "a"⟩]

/-- The dimension mean exactly as the spec words it: the arithmetic mean of
the non-null scores of the items tagged with the dimension, `null` when
there are none. -/
def specDimensionMean (items : List ScoredItem) (d : String) : Option ℚ :=
  let scores := (items.filter (fun x => decide (x.dimension = d))).filterMap
    (fun x => x.score)
  if scores.isEmpty then none else some (scores.sum / (scores.length : ℚ))

/-- C2 fixture: three likert questions in dimension DI. -/
def c2Instr : Instrument :=
  { question_bank := [⟨"Q1", "DI", "likert_5"⟩, ⟨"Q2", "DI", "likert_5"⟩,
                      ⟨"Q3", "DI", "likert_5"⟩] }

/-- C2 fixture: answers `1, 2, 2`, whose mean `5/3` is not a 2-decimal
number. -/
def c2Answers : List Answer :=
  [⟨"Q1", JSVal.num 1⟩, ⟨"Q2", JSVal.num 2⟩, ⟨"Q3", JSVal.num 2⟩]

/-- C5 fixture: two DI items scoring 4 and 5 and one RP item scoring 1. -/
def c5Items : List ScoredItem :=
  [⟨"Q1", "DI", "likert_5", JSVal.num 4, some 4⟩,
   ⟨"Q2", "DI", "likert_5", JSVal.num 5, some 5⟩,
   ⟨"Q3", "RP", "likert_5", JSVal.num 1, some 1⟩]

/-- C7 counterexample config: the penalty map assigns MEDIUM the penalty
`0.10`, different from the source's hard-coded `0.06` fallback. -/
def c7CC : ConsistencyCfg :=
  { confidence_adjustments := { per_cc_hit_penalty := some [("MEDIUM", 1 / 10)] } }

/-- C7 counterexample hit, carrying a severity absent from the penalty
map. -/
def c7Hit : Hit := ⟨"CC1", "title", "UNKNOWN", "msg"⟩

/-- The answers list with only the last occurrence of each question id
retained (the last-write-wins normal form of a submission). -/
def keepLast : List Answer → List Answer
  | [] => []
  | a :: rest =>
    if rest.any (fun b => decide (b.question_id = a.question_id)) then keepLast rest
    else a :: keepLast rest

/-- C6 fixture: a contradiction-pair rule firing when `Q1 ≥ 4` and
`Q2 = "no"`. -/
def c6Rule : Rule :=
  { cc_id := "CC1", title := "T", severity := "HIGH",
    logic := { type := "contradiction_pair",
               ifPreds := [{ question_id := "Q1", gte_likert := some 4 }],
               andPreds := [{ question_id := "Q2", equals := some (JSVal.str "no") }],
               message := "conflict" } }

/-- C6 fixture: a rule of an unrecognized shape, to be skipped. -/
def c6Skip : Rule :=
  { cc_id := "CC2", title := "S", severity := "LOW",
    logic := { type := "other_shape", message := "ignored" } }

/-- C6 fixture: the consistency config holding both rules. -/
def c6CC : ConsistencyCfg := { consistency_checks := [c6Rule, c6Skip] }

/-- C6 fixture: answers making the contradiction-pair rule fire. -/
def c6Answers : List Answer := [⟨"Q1", JSVal.num 5⟩, ⟨"Q2", JSVal.str "no"⟩]

/-- C8 fixture: two DI likert questions. -/
def c8Instr : Instrument :=
  { question_bank := [⟨"Q1", "DI", "likert_5"⟩, ⟨"Q2", "DI", "likert_5"⟩] }

/-- C8 fixture: `Q1` answered with the non-numeric string `"banana"`, `Q2`
with `4`. -/
def c8Answers : List Answer := [⟨"Q1", JSVal.str "banana"⟩, ⟨"Q2", JSVal.num 4⟩]

/-- C10 fixture: a two-question bank with distinct ids. -/
def c10Instr : Instrument :=
  { question_bank := [⟨"Q1", "DI", "likert_5"⟩, ⟨"Q2", "RP", "likert_5"⟩] }

/-- C10 fixture: only `Q1` is answered. -/
def c10Answers : List Answer := [⟨"Q1", JSVal.num 3⟩]

/-- C1: at the failing input the computed `oi` mean over the non-null
dimension scores is `0` (DI is available and equals `0`), yet the engine
reports `oi = null`, because line 128 of `src/scoring_engine.js` guards
the rounding with the truthiness test `OI ? Number(OI.toFixed(2)) : null`
and the number `0` is falsy.  The claim (and the spec's "null only if the
input set is empty") says the reported value must be `0` here. -/
theorem C1_zero_mean_index_reported_null :
  OI (scoredItems c1Instr c1Scoring c1Answers) = some 0 ∧
  dimensionScore (scoredItems c1Instr c1Scoring c1Answers) "DI" = some 0 ∧
  (runScoring c1Instr c1Scoring {} c1Answers).scoring.oi = none := by
  with_unfolding_all decide

/-! ## C3 -/

/-- C3 counterexample: the raw value `"2.5"` coerces to `5/2`, which is not
an integer (its denominator is `2`, not `1`), yet `scoreLikert5` returns
`5/2` rather than the `null` the claim requires for every raw value that
does not coerce to an integer in `[1,5]`. -/
theorem C3_counterexample :
  scoreLikert5 (JSVal.str "2.5") false = some (5 / 2) ∧
  toNumber (JSVal.str "2.5") = some (5 / 2) ∧ ((5 : ℚ) / 2).den ≠ 1 := by
  with_unfolding_all decide

/-- C3 (amended): `scoreLikert5` returns `null` exactly when the raw value
does not coerce to a finite number in `[1,5]`; integrality is not checked,
so any coerced value `n` with `1 ≤ n ≤ 5` — integer or not — yields `n`,
or `6 - n` when the question is reverse-scored.  (Totality of the Lean
function reflects that the source never throws.) -/
theorem C3_amended_likert5 (v : JSVal) (reverse : Bool) :
  (∀ n : ℚ, toNumber v = some n → 1 ≤ n → n ≤ 5 →
    scoreLikert5 v reverse = some (if reverse then 6 - n else n)) ∧
  (toNumber v = none → scoreLikert5 v reverse = none) ∧
  (∀ n : ℚ, toNumber v = some n → (n < 1 ∨ 5 < n) →
    scoreLikert5 v reverse = none) := by
  refine ⟨?_, ?_, ?_⟩
  · intro n hn h1 h5
    simp only [scoreLikert5, hn]
    rw [if_neg]
    push_neg
    exact ⟨h1, h5⟩
  · intro hn
    simp only [scoreLikert5, hn]
  · intro n hn hout
    simp only [scoreLikert5, hn]
    rw [if_pos]
    rcases hout with h | h
    · exact Or.inl h
    · exact Or.inr h

/-- C3 witness: the amended theorem applied at the reverse-scored answer
`4`, which scores `6 - 4 = 2`. -/
theorem C3_witness : scoreLikert5 (JSVal.num 4) true = some 2 := by
  have h := (C3_amended_likert5 (JSVal.num 4) true).1 4 rfl
    (by norm_num) (by norm_num)
  norm_num at h
  exact h

/-! ## C4 -/

/-- C4 counterexample: at the score `35`, exactly equal to the lowest upper
bound, the claim's rule (first threshold whose bound is ≥ the score) picks
"High Risk / Low Reliability", but `band` in `src/generate_reports.js`
tests `score < 35` and returns the next band. -/
theorem C4_counterexample :
  band (some 35) = "Mixed / Context-Sensitive" ∧
  firstBandGE bandThresholds bandTop 35 = "High Risk / Low Reliability" := by
  with_unfolding_all decide

/-- C4 (amended): `band null` is the distinguished "Insufficient data"
label, which no numeric score ever receives; for numeric scores, `band`
(generate_reports.js) returns the label of the first threshold whose
upper bound is strictly greater than the score — a score exactly equal to
an upper bound falls in the next band — else the top label, while
`bandFor` (build_draft.js) returns the label of the first threshold whose
upper bound is ≥ the score, as the claim states. -/
theorem C4_amended_band (s : ℚ) (cfg : BandsCfg) :
  band none = "Insufficient data" ∧
  band (some s) ≠ "Insufficient data" ∧
  band (some s) = firstBandGT bandThresholds bandTop s ∧
  bandFor (some s) cfg
    = firstBandGE [(cfg.risk_zone_max, "Risk Zone"),
                   (cfg.mixed_max, "Mixed / Context-dependent")]
        "Functional Strength" s := by
  refine ⟨rfl, ?_, ?_, ?_⟩
  · simp only [band]
    split_ifs <;> decide
  · simp only [band, firstBandGT, bandThresholds, bandTop]
    by_cases h1 : s < 35
    · simp [List.find?_cons_of_pos, h1]
    · by_cases h2 : s < 55
      · simp [List.find?_cons_of_pos, List.find?_cons_of_neg, h1, h2]
      · by_cases h3 : s < 75
        · simp [List.find?_cons_of_pos, List.find?_cons_of_neg, h1, h2, h3]
        · simp [List.find?_cons_of_neg, h1, h2, h3]
  · simp only [bandFor, firstBandGE, Option.getD]
    by_cases h1 : s ≤ cfg.risk_zone_max
    · simp [List.find?_cons_of_pos, h1]
    · by_cases h2 : s ≤ cfg.mixed_max
      · simp [List.find?_cons_of_pos, List.find?_cons_of_neg, h1, h2]
      · simp [List.find?_cons_of_neg, h1, h2]

/-- C4 witness: the amended theorem applied at the score `40` and at the
draft threshold configuration `{risk_zone_max: 2.79, mixed_max: 3.30}`
with the score `2.79`. -/
theorem C4_witness :
  band (some 40) = firstBandGT bandThresholds bandTop 40 ∧
  bandFor (some (279 / 100)) ⟨279 / 100, 33 / 10⟩
    = firstBandGE [((279 : ℚ) / 100, "Risk Zone"),
                   ((33 : ℚ) / 10, "Mixed / Context-dependent")]
        "Functional Strength" (279 / 100) := by
  exact ⟨(C4_amended_band 40 ⟨279 / 100, 33 / 10⟩).2.2.1,
         (C4_amended_band (279 / 100) ⟨279 / 100, 33 / 10⟩).2.2.2⟩

/-! ## C5 -/

/-- The dimension filter of line 85 composed with `mean`'s own non-null
filter collapses to: take the items tagged with the dimension and keep
their non-null scores. -/
lemma filter_score_filterMap (items : List ScoredItem) (d : String) :
    ((items.filter (fun x => decide (x.dimension = d) && x.score.isSome)).map
        (fun x => x.score)).filterMap id
      = (items.filter (fun x => decide (x.dimension = d))).filterMap
          (fun x => x.score) := by
  induction items with
  | nil => rfl
  | cons x xs ih =>
    by_cases hd : x.dimension = d
    · cases hs : x.score with
      | none => simp [List.filter_cons, List.filterMap_cons, hd, hs, ih]
      | some q => simp [List.filter_cons, List.filterMap_cons, hd, hs, ih]
    · simp [List.filter_cons, hd, ih]

/-- C5 counterexample: a dimension with zero scorable items.  The engine's
`mean`-based dimension score is `null` there, as the claim states, but
`build_draft.js`'s `avg`-based draft dimension score is the number `0` —
the claim's "null, never 0" fails on the cited `avg` (line 28:
`if (!arr.length) return 0`). -/
theorem C5_counterexample :
  draftDimensionScore [] "DI" = 0 ∧ avg [] = 0 ∧
  dimensionScore [] "DI" = none := by with_unfolding_all decide

/-- C5 (amended): in `scoring_engine.js` the dimension score equals the
arithmetic mean of the non-null scores of the items tagged with the
dimension and is `null` exactly when that dimension has zero scorable
items; in `build_draft.js`'s MVP draft scorer, however, a dimension whose
bucket has zero scorable items scores `0`, not `null`. -/
theorem C5_amended_dimension_mean (items : List ScoredItem) (d : String) :
  dimensionScore items d = specDimensionMean items d ∧
  (dimensionScore items d = none ↔
    (items.filter (fun x => decide (x.dimension = d))).filterMap
      (fun x => x.score) = []) ∧
  (∀ values : List (Option ℚ), draftBucket values d = [] →
    draftDimensionScore values d = 0) := by
  have key := filter_score_filterMap items d
  have h1 : dimensionScore items d = specDimensionMean items d := by
    simp only [dimensionScore, specDimensionMean, mean]
    rw [key]
    by_cases h : (items.filter (fun x => decide (x.dimension = d))).filterMap
        (fun x => x.score) = []
    · simp [h]
    · simp [h, List.length_eq_zero, List.isEmpty_iff]
  refine ⟨h1, ?_, ?_⟩
  · rw [h1]
    simp only [specDimensionMean]
    by_cases h : (items.filter (fun x => decide (x.dimension = d))).filterMap
        (fun x => x.score) = []
    · simp [h]
    · simp [h, List.isEmpty_iff]
  · intro values hv
    simp only [draftDimensionScore, hv]
    with_unfolding_all decide

/-- C5 witness: the amended theorem applied at a concrete item list (DI
mean `9/2`) and at the empty draft bucket. -/
theorem C5_witness :
  dimensionScore c5Items "DI" = some (9 / 2) ∧
  draftDimensionScore [] "DI" = 0 := by
  constructor
  · rw [(C5_amended_dimension_mean c5Items "DI").1]
    with_unfolding_all decide
  · exact (C5_amended_dimension_mean c5Items "DI").2.2 [] rfl

/-! ## C2 -/

/-- C2 counterexample: the DI dimension score of answers `1, 2, 2` is
returned as the full-precision mean `5/3`, which differs from `5/3`
rounded to 2 decimals (`1.67`); dimension scores are not rounded
(line 126 returns `dimension_scores` as computed on line 87). -/
theorem C2_counterexample :
  (runScoring c2Instr {} {} c2Answers).scoring.dimension_scores.lookup "DI"
    = some (some (5 / 3)) ∧
  round2 (5 / 3) = 167 / 100 ∧ ((5 : ℚ) / 3) ≠ 167 / 100 := by
  with_unfolding_all decide

/-- C2 (amended): only the aggregate indices are rounded — a non-null
reported `oi`/`hsri` equals the full-precision mean of its non-null input
dimension scores rounded to 2 decimals — while the `dimension_scores`
entries are the unrounded full-precision means. -/
theorem C2_amended_rounding (instrument : Instrument) (scfg : ScoringCfg)
    (cc : ConsistencyCfg) (answers : List Answer) (q : ℚ) :
  ((runScoring instrument scfg cc answers).scoring.oi = some q →
    ∃ m, OI (scoredItems instrument scfg answers) = some m ∧ q = round2 m) ∧
  ((runScoring instrument scfg cc answers).scoring.hsri = some q →
    ∃ m, HSRI (scoredItems instrument scfg answers) = some m ∧ q = round2 m) ∧
  ((runScoring instrument scfg cc answers).scoring.dimension_scores
    = dims.map (fun d => (d, dimensionScore (scoredItems instrument scfg answers) d))) := by
  refine ⟨?_, ?_, rfl⟩
  · intro h
    simp only [runScoring, runScoringL, reportAggregate] at h
    revert h
    cases hOI : OI (scoredItemsL instrument scfg (byId answers)) with
    | none => intro h; cases h
    | some m =>
      intro h
      by_cases hm : m = 0
      · simp [hm] at h
      · simp [hm] at h
        exact ⟨m, hOI, h.symm⟩
  · intro h
    simp only [runScoring, runScoringL, reportAggregate] at h
    revert h
    cases hH : HSRI (scoredItemsL instrument scfg (byId answers)) with
    | none => intro h; cases h
    | some m =>
      intro h
      by_cases hm : m = 0
      · simp [hm] at h
      · simp [hm] at h
        exact ⟨m, hH, h.symm⟩

/-- C2 witness: the amended theorem applied at the C2 fixture, where the
reported `oi` is `1.67 = round2 (5/3)`. -/
theorem C2_witness :
  OI (scoredItems c2Instr {} c2Answers) = some (5 / 3) ∧
  (167 : ℚ) / 100 = round2 (5 / 3) := by
  have h5 : OI (scoredItems c2Instr {} c2Answers) = some (5 / 3) := by
    with_unfolding_all decide
  obtain ⟨m, hm, hr⟩ := (C2_amended_rounding c2Instr {} {} c2Answers (167 / 100)).1
    (by with_unfolding_all decide)
  have hmeq : m = 5 / 3 := Option.some_injective _ (hm.symm.trans h5)
  exact ⟨h5, hmeq ▸ hr⟩

/-! ## C7 -/

/-- Subtracting each hit's penalty in a left fold is the same as
subtracting the sum of the penalties. -/
lemma foldl_sub_eq_sub_sum (f : Hit → ℚ) (base : ℚ) (hits : List Hit) :
    hits.foldl (fun c h => c - f h) base = base - (hits.map f).sum := by
  induction hits generalizing base with
  | nil => simp
  | cons h t ih =>
    simp only [List.foldl_cons, List.map_cons, List.sum_cons, ih]
    ring

/-- C7 counterexample: with the penalty map `{MEDIUM: 0.10}` and one hit of
unknown severity, the engine subtracts the hard-coded `0.06` fallback of
line 119 (`penalty[h.severity] ?? 0.06`) and scores `0.79`, whereas the
claim — unknown severity uses the configured MEDIUM penalty — demands
`max(0.55, round2(0.85 - 0.10)) = 0.75`. -/
theorem C7_counterexample :
  confidenceScore c7CC [c7Hit] = 79 / 100 ∧
  max ((55 : ℚ) / 100) (round2 ((85 : ℚ) / 100 - 1 / 10)) = 75 / 100 ∧
  ((79 : ℚ) / 100) ≠ 75 / 100 := by
  with_unfolding_all decide

/-- C7 (amended): the confidence score equals the base confidence minus
the sum over all hits of the configured penalty for the hit's severity —
a severity missing from the penalty map contributing the fixed constant
`0.06`, not the configured MEDIUM penalty — rounded to 2 decimals and
then clamped up to the floor (so the result is always ≥ floor); the level
is HIGH when the score is ≥ 0.80, MEDIUM when ≥ 0.65 and < 0.80, else
LOW. -/
theorem C7_amended_confidence (cc : ConsistencyCfg) (hits : List Hit) :
  confidenceScore cc hits
    = max (cc.confidence_adjustments.floor.getD (55 / 100))
        (round2 (cc.confidence_adjustments.base_confidence.getD (85 / 100)
          - (hits.map (fun h => penaltyFor
              (cc.confidence_adjustments.per_cc_hit_penalty.getD defaultPenalty)
              h.severity)).sum)) ∧
  cc.confidence_adjustments.floor.getD (55 / 100) ≤ confidenceScore cc hits ∧
  (∀ s : ℚ, (4 / 5 ≤ s → confidenceLevel s = "HIGH") ∧
    (65 / 100 ≤ s → s < 4 / 5 → confidenceLevel s = "MEDIUM") ∧
    (s < 65 / 100 → confidenceLevel s = "LOW")) := by
  have hscore : confidenceScore cc hits
      = max (cc.confidence_adjustments.floor.getD (55 / 100))
          (round2 (cc.confidence_adjustments.base_confidence.getD (85 / 100)
            - (hits.map (fun h => penaltyFor
                (cc.confidence_adjustments.per_cc_hit_penalty.getD defaultPenalty)
                h.severity)).sum)) := by
    simp only [confidenceScore]
    rw [foldl_sub_eq_sub_sum]
  refine ⟨hscore, ?_, ?_⟩
  · rw [hscore]
    exact le_max_left _ _
  · intro s
    refine ⟨?_, ?_, ?_⟩
    · intro hs
      simp only [confidenceLevel]
      rw [if_pos]
      exact hs
    · intro h65 h80
      simp only [confidenceLevel]
      rw [if_neg (by linarith), if_pos h65]
    · intro hs
      simp only [confidenceLevel]
      rw [if_neg (by linarith), if_neg (by linarith)]

/-- C7 witness: the amended theorem applied at the default configuration
with no hits (floor `0.55` ≤ score) and at the score `0.79` (MEDIUM). -/
theorem C7_witness :
  ({} : ConsistencyCfg).confidence_adjustments.floor.getD (55 / 100)
    ≤ confidenceScore {} [] ∧
  confidenceLevel (79 / 100) = "MEDIUM" := by
  refine ⟨(C7_amended_confidence {} []).2.1, ?_⟩
  exact ((C7_amended_confidence {} []).2.2 (79 / 100)).2.1 (by norm_num) (by norm_num)

/-! ## Characterization of the `byId` answer map -/

/-- The `byId` fold over any initial map: the last matching answer wins,
and an unmatched id falls through to the initial map. -/
lemma byId_go (l : List Answer) (init : String → Option Answer) (qid : String) :
    l.foldl (fun m a => fun q => if q = a.question_id then some a else m q) init qid
      = match l.reverse.find? (fun a => decide (a.question_id = qid)) with
        | some a => some a
        | none => init qid := by
  induction l generalizing init with
  | nil => rfl
  | cons a t ih =>
    simp only [List.foldl_cons, List.reverse_cons]
    rw [ih, List.find?_append]
    cases htail : t.reverse.find? (fun a => decide (a.question_id = qid)) with
    | some b => rfl
    | none =>
      by_cases h : a.question_id = qid
      · simp [List.find?_cons, h, eq_comm]
      · simp [List.find?_cons, h]
        intro hq
        exact absurd hq.symm h

/-- Map `byId` returns the last answer in the list carrying the id. -/
lemma byId_eq_findLast (l : List Answer) (qid : String) :
    byId l qid = l.reverse.find? (fun a => decide (a.question_id = qid)) := by
  rw [byId, byId_go]
  cases l.reverse.find? (fun a => decide (a.question_id = qid)) with
  | some b => rfl
  | none => rfl

/-- Map `byId` on a cons cell: the tail wins over the head. -/
lemma byId_cons (a : Answer) (t : List Answer) (qid : String) :
    byId (a :: t) qid
      = match byId t qid with
        | some b => some b
        | none => if qid = a.question_id then some a else none := by
  rw [byId_eq_findLast, byId_eq_findLast, List.reverse_cons, List.find?_append]
  cases t.reverse.find? (fun x => decide (x.question_id = qid)) with
  | some b => rfl
  | none =>
    by_cases h : a.question_id = qid
    · simp [List.find?_cons, h, eq_comm]
    · simp [List.find?_cons, h]
      rw [if_neg (fun hq => h hq.symm)]

/-- If some answer in the list carries the id, `byId` finds one. -/
lemma byId_isSome_of_any (t : List Answer) (qid : String)
    (h : t.any (fun b => decide (b.question_id = qid)) = true) :
    (byId t qid).isSome := by
  induction t with
  | nil => simp at h
  | cons a t ih =>
    rw [byId_cons]
    cases hb : byId t qid with
    | some b => rfl
    | none =>
      simp only [List.any_cons, Bool.or_eq_true, decide_eq_true_eq] at h
      rcases h with h | h
      · simp [h]
      · have hs := ih h
        rw [hb] at hs
        simp at hs

/-- Dropping all but the last occurrence of every question id leaves the
`byId` map unchanged. -/
lemma byId_keepLast (l : List Answer) (qid : String) :
    byId (keepLast l) qid = byId l qid := by
  induction l with
  | nil => rfl
  | cons a t ih =>
    by_cases h : t.any (fun b => decide (b.question_id = a.question_id)) = true
    · simp only [keepLast, if_pos h]
      rw [ih, byId_cons]
      cases hb : byId t qid with
      | some b => rfl
      | none =>
        by_cases hq : qid = a.question_id
        · exfalso
          have hs := byId_isSome_of_any t a.question_id h
          rw [← hq, hb] at hs
          simp at hs
        · simp [hq]
    · simp only [keepLast, if_neg h]
      rw [byId_cons, byId_cons, ih]

/-! ## C9 -/

/-- C9: the engine reads the answers array only through the `byId` object,
which a later duplicate overwrites, so the whole result — scoring section
and consistency section alike — is unchanged when every duplicate but the
last is dropped; and `byId` resolves an id to the last occurrence in the
answers sequence. -/
theorem C9_last_write_wins (instrument : Instrument) (scfg : ScoringCfg)
    (cc : ConsistencyCfg) (answers : List Answer) :
  runScoring instrument scfg cc (keepLast answers)
    = runScoring instrument scfg cc answers ∧
  (∀ qid, byId answers qid
    = answers.reverse.find? (fun a => decide (a.question_id = qid))) := by
  constructor
  · have h : byId (keepLast answers) = byId answers :=
      funext (byId_keepLast answers)
    rw [runScoring, runScoring, h]
  · intro qid
    exact byId_eq_findLast answers qid

/-! ## C6 -/

/-- C6: the hits list is exactly the declaration-order sublist of the
`contradiction_pair` rules all of whose `if` predicates and all of whose
`and` predicates evaluate true (an empty group being vacuously true),
each mapped to its hit record; rules of any other `logic.type` are
dropped by the same filter; and a predicate over a missing answer
evaluates false. -/
theorem C6_consistency_hits (cc : ConsistencyCfg) (answers : List Answer) :
  consistencyHits cc answers
    = (cc.consistency_checks.filter (fun r =>
        decide (r.logic.type = "contradiction_pair"
          ∧ (∀ p ∈ r.logic.ifPreds,
              evaluatePredicate (byId answers p.question_id) p = true)
          ∧ (∀ p ∈ r.logic.andPreds,
              evaluatePredicate (byId answers p.question_id) p = true)))).map
      (fun r => { cc_id := r.cc_id, title := r.title, severity := r.severity,
                  message := r.logic.message }) ∧
  (∀ pred : Pred, ∀ qid : String, byId answers qid = none →
    evaluatePredicate (byId answers qid) pred = false) := by
  constructor
  · rw [consistencyHits, consistencyHitsL]
    congr 1
    apply List.filter_congr
    intro r _
    rw [Bool.eq_iff_iff]
    simp [List.all_eq_true, and_assoc]
  · intro pred qid h
    rw [h]
    rfl

/-- C6 witness: at the concrete fixture the firing contradiction-pair rule
is reported, the unrecognized rule shape is skipped, and a predicate over
the unanswered id `QX` evaluates false. -/
theorem C6_witness :
  consistencyHits c6CC c6Answers = [⟨"CC1", "T", "HIGH", "conflict"⟩] ∧
  evaluatePredicate (byId c6Answers "QX")
    { question_id := "QX", equals := some (JSVal.str "x") } = false := by
  constructor
  · rw [(C6_consistency_hits c6CC c6Answers).1]
    with_unfolding_all decide
  · exact (C6_consistency_hits c6CC c6Answers).2
      { question_id := "QX", equals := some (JSVal.str "x") } "QX"
      (by with_unfolding_all decide)

/-! ## C8 -/

/-- Finding in a list from which every answer with id `qid` was removed:
`qid` itself is never found, every other id is found as before. -/
lemma find?_filter_ne (l : List Answer) (qid q : String) :
    (l.filter (fun x => !decide (x.question_id = qid))).find?
        (fun a => decide (a.question_id = q))
      = if q = qid then none
        else l.find? (fun a => decide (a.question_id = q)) := by
  induction l with
  | nil => simp
  | cons a t ih =>
    by_cases hx : a.question_id = qid
    · rw [List.filter_cons_of_neg (by simp [hx])]
      rw [ih]
      by_cases hq : q = qid
      · rw [if_pos hq, if_pos hq]
      · have haq : ¬ a.question_id = q := fun hh => hq (by rw [← hh, hx])
        rw [if_neg hq, if_neg hq, List.find?_cons]
        simp [haq]
    · rw [List.filter_cons_of_pos (by simp [hx])]
      by_cases ha : a.question_id = q
      · have hq : ¬ q = qid := fun hh => hx (by rw [ha, hh])
        rw [if_neg hq, List.find?_cons, List.find?_cons]
        simp [ha]
      · rw [List.find?_cons, List.find?_cons]
        simp only [ha, decide_False]
        rw [ih]

/-- Removing every answer with id `qid` empties `byId` at `qid` and leaves
every other id untouched. -/
lemma byId_filter_ne (answers : List Answer) (qid q : String) :
    byId (answers.filter (fun x => !decide (x.question_id = qid))) q
      = if q = qid then none else byId answers q := by
  rw [byId_eq_findLast, byId_eq_findLast, ← List.filter_reverse]
  exact find?_filter_ne answers.reverse qid q

/-- Scoring a submission from which the answer for `qid` was removed
yields exactly the scored items of the full submission minus the items
for `qid`. -/
lemma scoredItems_drop_qid (bank : List Question) (scfg : ScoringCfg)
    (answers : List Answer) (qid : String) :
    scoredItemsL ⟨bank⟩ scfg
        (byId (answers.filter (fun x => !decide (x.question_id = qid))))
      = (scoredItemsL ⟨bank⟩ scfg (byId answers)).filter
          (fun it => !decide (it.question_id = qid)) := by
  induction bank with
  | nil => rfl
  | cons x xs ih =>
    simp only [scoredItemsL] at ih ⊢
    simp only [List.filterMap_cons]
    have h1 := byId_filter_ne answers qid x.question_id
    by_cases hq : x.question_id = qid
    · rw [if_pos hq] at h1
      rw [h1]
      cases hb : byId answers x.question_id with
      | none => simpa using ih
      | some a =>
        simp only [List.filter_cons]
        rw [ih]
        simp [hq]
    · rw [if_neg hq] at h1
      rw [h1]
      cases hb : byId answers x.question_id with
      | none => simpa using ih
      | some a =>
        simp only [List.filter_cons]
        rw [ih]
        simp [hq]

/-- C8: a malformed answer — one whose raw value does not normalize for
its question — is isolated: its items are scored `null`, every other
item is exactly what it would be had the answer been absent, and every
dimension mean is unchanged by removing the malformed answer.  (The Lean
embedding is total: the source's no-throw behavior corresponds to these
functions being defined on every input.) -/
theorem C8_malformed_answer_isolated (instrument : Instrument) (scfg : ScoringCfg)
    (answers : List Answer) (qid : String)
    (hmal : ∀ q ∈ instrument.question_bank, q.question_id = qid →
      ∀ a, byId answers qid = some a → scoreQuestion scfg q a = none) :
  (∀ it ∈ scoredItems instrument scfg answers,
    it.question_id = qid → it.score = none) ∧
  (scoredItems instrument scfg
      (answers.filter (fun x => !decide (x.question_id = qid)))
    = (scoredItems instrument scfg answers).filter
        (fun it => !decide (it.question_id = qid))) ∧
  (∀ d, dimensionScore (scoredItems instrument scfg answers) d
    = dimensionScore (scoredItems instrument scfg
        (answers.filter (fun x => !decide (x.question_id = qid)))) d) := by
  have hnull : ∀ it ∈ scoredItems instrument scfg answers,
      it.question_id = qid → it.score = none := by
    intro it hit hitq
    rw [scoredItems, scoredItemsL] at hit
    obtain ⟨q', hq', hf⟩ := List.mem_filterMap.mp hit
    cases hb : byId answers q'.question_id with
    | none => rw [hb] at hf; cases hf
    | some a =>
      rw [hb] at hf
      obtain rfl := Option.some_injective _ hf
      have hqq : q'.question_id = qid := hitq
      rw [hqq] at hb
      exact hmal q' hq' hqq a hb
  have hdrop : scoredItems instrument scfg
      (answers.filter (fun x => !decide (x.question_id = qid)))
      = (scoredItems instrument scfg answers).filter
          (fun it => !decide (it.question_id = qid)) := by
    rw [scoredItems, scoredItems]
    exact scoredItems_drop_qid instrument.question_bank scfg answers qid
  refine ⟨hnull, hdrop, ?_⟩
  intro d
  rw [hdrop, dimensionScore, dimensionScore]
  congr 1
  congr 1
  rw [List.filter_filter]
  apply List.filter_congr
  intro x hx
  by_cases hq : x.question_id = qid
  · have hsc := hnull x hx hq
    simp [hsc, hq]
  · simp [hq]

/-- C8 witness: with `Q1` answered `"banana"` (not scorable for a likert
question) and `Q2` answered `4`, the DI dimension mean equals the mean
with the `"banana"` answer removed, and the `Q1` item is scored `null`. -/
theorem C8_witness :
  dimensionScore (scoredItems c8Instr {} c8Answers) "DI"
    = dimensionScore (scoredItems c8Instr {}
        (c8Answers.filter (fun x => !decide (x.question_id = "Q1")))) "DI" ∧
  (⟨"Q1", "DI", "likert_5", JSVal.str "banana", none⟩ : ScoredItem).score = none := by
  have hmal : ∀ q ∈ c8Instr.question_bank, q.question_id = "Q1" →
      ∀ a, byId c8Answers "Q1" = some a → scoreQuestion {} q a = none := by
    intro q hq hqid a ha
    have hb : byId c8Answers "Q1" = some ⟨"Q1", JSVal.str "banana"⟩ := by
      with_unfolding_all decide
    rw [hb] at ha
    obtain rfl := Option.some_injective _ ha
    simp only [c8Instr, List.mem_cons, List.not_mem_nil, or_false] at hq
    rcases hq with rfl | rfl
    · with_unfolding_all decide
    · exact absurd hqid (by decide)
  have h := C8_malformed_answer_isolated c8Instr {} c8Answers "Q1" hmal
  refine ⟨h.2.2 "DI", ?_⟩
  exact h.1 ⟨"Q1", "DI", "likert_5", JSVal.str "banana", none⟩
    (by with_unfolding_all decide) rfl

/-! ## C10 -/

/-- Counting matching scored items: each bank entry carrying the id and an
answer contributes exactly one item with that id, every other entry
contributes none. -/
lemma scored_count (scfg : ScoringCfg) (lookup : String → Option Answer)
    (bank : List Question) (qid : String) :
    ((scoredItemsL ⟨bank⟩ scfg lookup).filter
        (fun it => decide (it.question_id = qid))).length
      = ((bank.filter (fun x => decide (x.question_id = qid))).filter
          (fun x => (lookup x.question_id).isSome)).length := by
  induction bank with
  | nil => rfl
  | cons x xs ih =>
    simp only [scoredItemsL] at ih ⊢
    simp only [List.filterMap_cons]
    cases hb : lookup x.question_id with
    | none =>
      rw [ih]
      by_cases hq : x.question_id = qid
      · rw [List.filter_cons_of_pos (by simp [hq]),
          List.filter_cons_of_neg (by simp [hb])]
      · rw [List.filter_cons_of_neg (by simp [hq])]
    | some a =>
      by_cases hq : x.question_id = qid
      · rw [List.filter_cons_of_pos (by simp [hq]),
          List.filter_cons_of_pos (by simp [hq]),
          List.filter_cons_of_pos (by simp [hb])]
        simp only [List.length_cons, ih]
      · rw [List.filter_cons_of_neg (by simp [hq]),
          List.filter_cons_of_neg (by simp [hq]), ih]

/-- Under distinct bank ids, the bank holds exactly one question with the
id of a member, and if that id is answered the double filter has length
one. -/
lemma bank_count_one (bank : List Question) (q : Question)
    (lookup : String → Option Answer)
    (hnodup : (bank.map (fun x => x.question_id)).Nodup) (hq : q ∈ bank)
    (hans : (lookup q.question_id).isSome) :
    ((bank.filter (fun x => decide (x.question_id = q.question_id))).filter
      (fun x => (lookup x.question_id).isSome)).length = 1 := by
  induction bank with
  | nil => cases hq
  | cons x xs ih =>
    simp only [List.map_cons, List.nodup_cons] at hnodup
    obtain ⟨hx, hxs⟩ := hnodup
    rcases List.mem_cons.mp hq with rfl | hq'
    · rw [List.filter_cons_of_pos (by simp)]
      have hrest : xs.filter (fun x => decide (x.question_id = q.question_id)) = [] := by
        rw [List.filter_eq_nil_iff]
        intro y hy
        simp only [decide_eq_true_eq]
        intro hyq
        exact hx (by rw [← hyq]; exact List.mem_map_of_mem _ hy)
      rw [hrest, List.filter_cons_of_pos (by simpa using hans)]
      rfl
    · have hxq : ¬ x.question_id = q.question_id := by
        intro hh
        exact hx (hh ▸ List.mem_map_of_mem _ hq')
      rw [List.filter_cons_of_neg (by simp [hxq])]
      exact ih hxs hq'

/-- C10: a bank question with no submitted answer contributes no entry at
all to `scored_items` (the loop `continue`s past it), and — the bank's
ids being distinct, as the instrument invariant requires — an answered
bank question contributes exactly one entry. -/
theorem C10_unanswered_omitted (instrument : Instrument) (scfg : ScoringCfg)
    (answers : List Answer) (q : Question)
    (hq : q ∈ instrument.question_bank)
    (hnodup : (instrument.question_bank.map (fun x => x.question_id)).Nodup) :
  (byId answers q.question_id = none →
    ∀ it ∈ scoredItems instrument scfg answers, it.question_id ≠ q.question_id) ∧
  ((byId answers q.question_id).isSome →
    ((scoredItems instrument scfg answers).filter
      (fun it => decide (it.question_id = q.question_id))).length = 1) := by
  constructor
  · intro hnone it hit hitq
    rw [scoredItems, scoredItemsL] at hit
    obtain ⟨q', hq', hf⟩ := List.mem_filterMap.mp hit
    cases hb : byId answers q'.question_id with
    | none => rw [hb] at hf; cases hf
    | some a =>
      rw [hb] at hf
      obtain rfl := Option.some_injective _ hf
      have hqq : q'.question_id = q.question_id := hitq
      rw [hqq, hnone] at hb
      cases hb
  · intro hans
    rw [scoredItems]
    have h := scored_count scfg (byId answers) instrument.question_bank q.question_id
    rw [h]
    exact bank_count_one instrument.question_bank q (byId answers) hnodup hq hans

/-- C10 witness: at the fixture with `Q1` answered and `Q2` unanswered,
no scored item carries `Q2`'s id and exactly one carries `Q1`'s. -/
theorem C10_witness :
  (⟨"Q1", "DI", "likert_5", JSVal.num 3, some 3⟩ : ScoredItem).question_id ≠ "Q2" ∧
  ((scoredItems c10Instr {} c10Answers).filter
    (fun it => decide (it.question_id = "Q1"))).length = 1 := by
  constructor
  · exact (C10_unanswered_omitted c10Instr {} c10Answers ⟨"Q2", "RP", "likert_5"⟩
      (by with_unfolding_all decide) (by with_unfolding_all decide)).1
      (by with_unfolding_all decide)
      ⟨"Q1", "DI", "likert_5", JSVal.num 3, some 3⟩
      (by with_unfolding_all decide)
  · exact (C10_unanswered_omitted c10Instr {} c10Answers ⟨"Q1", "DI", "likert_5"⟩
      (by with_unfolding_all decide) (by with_unfolding_all decide)).2
      (by with_unfolding_all decide)

end LRID
